import Mathlib

/-!
Verification of the IDE / ATA-ATAPI task-file decoder (`pd.py`).

The decoder is embedded shallowly: one bus cycle (the data sampled at a
read/write strobe edge) is a `BusCycle`; the decoder's mutable session state
(task-file shadow registers, HOB latch, CDB capture) is a `DecState`; the
body of the `while True` loop in `Decoder.decode` becomes the pure step
function `decodeCycle`, and a whole capture is a fold `decodeTrace` over a
list of cycles.  Annotations are `(class-index, text)` pairs, emitted in
order.
-/

/-- Decoder options (`Decoder.options`). -/
structure Options where
  parse_cdb : Bool
  ignore_data : Bool
  squelch_dma : Bool
  emit_reads : Bool

/-- Keys of the task-file shadow dictionary `self.tf`. -/
inductive TfField
  | features | sector_count | lba0 | lba1 | lba2 | device
  | hob_features | hob_sector_count | hob_lba0 | hob_lba1 | hob_lba2
deriving DecidableEq, Repr

/-- The register names returned by `Decoder.reg_name`. -/
inductive Reg
  | data | features | error | sector_count | lba0 | lba1 | lba2 | device
  | command | status | devctl | altstatus | drive_addr
deriving DecidableEq, Repr

/-- One register-access bus cycle as sampled at a strobe edge: which strobe
fired, the raw (active-low) chip-select levels, the 3-bit address, the data
bus value, and the optional side-band levels (false when unwired, matching
the decoder's default for missing optional channels). -/
structure BusCycle where
  isWrite : Bool
  isRead : Bool
  cs0_line : Bool
  cs1_line : Bool
  da : Nat
  val : Nat
  dmarq : Bool
  intrq : Bool

/-- The decoder's mutable session state, as set up by `Decoder.reset`. -/
structure DecState where
  tf : TfField → Nat
  hob : Nat
  in_cdb : Bool
  cdb_bytes_expected : Nat
  cdb_buf : List Nat

/-- State after `Decoder.reset`: all task-file fields 0, HOB clear, no
CDB capture. -/
def initState : DecState :=
  { tf := fun _ => 0, hob := 0, in_cdb := false, cdb_bytes_expected := 0, cdb_buf := [] }

/-- An emitted annotation: `(annotation class index, text)`. -/
abbrev Ann := Nat × String

/-- The built-in ATA command table `ATA_COMMANDS`. -/
def ATA_COMMANDS : Nat → Option String := fun op =>
  match op with
  | 0x00 => some "NOP"
  | 0x06 => some "DATA SET MANAGEMENT"
  | 0x07 => some "DATA SET MANAGEMENT XL"
  | 0x08 => some "DEVICE RESET"
  | 0x0B => some "REQUEST SENSE DATA EXT"
  | 0x10 => some "RECALIBRATE"
  | 0x20 => some "READ SECTORS"
  | 0x21 => some "READ SECTORS (no retry)"
  | 0x22 => some "READ LONG"
  | 0x23 => some "READ LONG (no retry)"
  | 0x24 => some "READ SECTORS EXT"
  | 0x25 => some "READ DMA EXT"
  | 0x26 => some "READ DMA QUEUED EXT"
  | 0x27 => some "READ NATIVE MAX ADDRESS EXT"
  | 0x29 => some "READ MULTIPLE EXT"
  | 0x2A => some "READ STREAM DMA EXT"
  | 0x2B => some "READ STREAM EXT"
  | 0x2F => some "READ LOG EXT"
  | 0x30 => some "WRITE SECTORS"
  | 0x31 => some "WRITE SECTORS (no retry)"
  | 0x32 => some "WRITE LONG"
  | 0x33 => some "WRITE LONG (no retry)"
  | 0x34 => some "WRITE SECTORS EXT"
  | 0x35 => some "WRITE DMA EXT"
  | 0x36 => some "WRITE DMA QUEUED EXT"
  | 0x39 => some "WRITE MULTIPLE EXT"
  | 0x3A => some "WRITE STREAM DMA EXT"
  | 0x3B => some "WRITE STREAM EXT"
  | 0x3C => some "WRITE VERIFY"
  | 0x3D => some "WRITE DMA FUA EXT"
  | 0x3E => some "WRITE DMA QUEUED FUA EXT"
  | 0x3F => some "WRITE LOG EXT"
  | 0x40 => some "READ VERIFY SECTORS"
  | 0x41 => some "READ VERIFY SECTORS (no retry)"
  | 0x42 => some "READ VERIFY SECTORS EXT"
  | 0x44 => some "ZERO EXT"
  | 0x45 => some "WRITE UNCORRECTABLE EXT"
  | 0x47 => some "READ LOG DMA EXT"
  | 0x4A => some "ZAC MANAGEMENT IN"
  | 0x50 => some "FORMAT TRACK"
  | 0x51 => some "CONFIGURE STREAM"
  | 0x5B => some "TRUSTED NON-DATA"
  | 0x5C => some "TRUSTED RECEIVE"
  | 0x5D => some "TRUSTED RECEIVE DMA"
  | 0x5E => some "TRUSTED SEND"
  | 0x5F => some "TRUSTED SEND DMA"
  | 0x60 => some "READ FPDMA QUEUED"
  | 0x61 => some "WRITE FPDMA QUEUED"
  | 0x63 => some "NCQ NON-DATA"
  | 0x64 => some "SEND FPDMA QUEUED"
  | 0x65 => some "RECEIVE FPDMA QUEUED"
  | 0x70 => some "SEEK"
  | 0x77 => some "SET DATE & TIME EXT"
  | 0x78 => some "ACCESSIBLE MAX ADDRESS CONFIGURATION"
  | 0x7C => some "REMOVE ELEMENT AND TRUNCATE"
  | 0x7D => some "RESTORE ELEMENTS AND REBUILD"
  | 0x87 => some "CFA TRANSLATE SECTOR"
  | 0x90 => some "EXECUTE DEVICE DIAGNOSTIC"
  | 0x91 => some "INITIALIZE DEVICE PARAMETERS"
  | 0x92 => some "DOWNLOAD MICROCODE"
  | 0x93 => some "DOWNLOAD MICROCODE DMA"
  | 0x9F => some "ZAC MANAGEMENT OUT"
  | 0xA0 => some "PACKET"
  | 0xA1 => some "IDENTIFY PACKET DEVICE"
  | 0xA2 => some "SERVICE"
  | 0xB0 => some "SMART"
  | 0xB1 => some "DEVICE CONFIGURATION OVERLAY"
  | 0xB2 => some "SET SECTOR CONFIGURATION EXT"
  | 0xB4 => some "SANITIZE DEVICE"
  | 0xB6 => some "NV CACHE"
  | 0xC0 => some "CFA ERASE SECTORS"
  | 0xC4 => some "READ MULTIPLE"
  | 0xC5 => some "WRITE MULTIPLE"
  | 0xC6 => some "SET MULTIPLE MODE"
  | 0xC7 => some "READ DMA QUEUED"
  | 0xC8 => some "READ DMA"
  | 0xC9 => some "READ DMA (no retry)"
  | 0xCA => some "WRITE DMA"
  | 0xCB => some "WRITE DMA (no retry)"
  | 0xCC => some "WRITE DMA QUEUED"
  | 0xCD => some "CFA WRITE MULTIPLE WITHOUT ERASE"
  | 0xCE => some "WRITE MULTIPLE FUA EXT"
  | 0xD1 => some "CHECK MEDIA CARD TYPE"
  | 0xDA => some "GET MEDIA STATUS"
  | 0xDB => some "ACKNOWLEDGE MEDIA CHANGE"
  | 0xDE => some "MEDIA LOCK"
  | 0xDF => some "MEDIA UNLOCK"
  | 0xE0 => some "STANDBY IMMEDIATE"
  | 0xE1 => some "IDLE IMMEDIATE"
  | 0xE2 => some "STANDBY"
  | 0xE3 => some "IDLE"
  | 0xE4 => some "READ BUFFER"
  | 0xE5 => some "CHECK POWER MODE"
  | 0xE6 => some "SLEEP"
  | 0xE7 => some "FLUSH CACHE"
  | 0xE8 => some "WRITE BUFFER"
  | 0xE9 => some "READ BUFFER DMA"
  | 0xEA => some "FLUSH CACHE EXT"
  | 0xEB => some "WRITE BUFFER DMA"
  | 0xEC => some "IDENTIFY DEVICE"
  | 0xED => some "MEDIA EJECT"
  | 0xEE => some "IDENTIFY DEVICE DMA"
  | 0xEF => some "SET FEATURES"
  | 0xF1 => some "SECURITY SET PASSWORD"
  | 0xF2 => some "SECURITY UNLOCK"
  | 0xF3 => some "SECURITY ERASE PREPARE"
  | 0xF4 => some "SECURITY ERASE UNIT"
  | 0xF5 => some "SECURITY FREEZE LOCK"
  | 0xF6 => some "SECURITY DISABLE PASSWORD"
  | 0xF8 => some "READ NATIVE MAX ADDRESS"
  | 0xF9 => some "SET MAX ADDRESS"
  | _ => none

/-- The user-extensible override map `CUSTOM_ATA_COMMANDS` (empty in the
source). -/
def CUSTOM_ATA_COMMANDS : Nat → Option String := fun _ => none

/-- The built-in ATAPI/SCSI CDB table `ATAPI_CDB`. -/
def ATAPI_CDB : Nat → Option String := fun op =>
  match op with
  | 0x00 => some "TEST UNIT READY"
  | 0x03 => some "REQUEST SENSE"
  | 0x12 => some "INQUIRY"
  | 0x1A => some "MODE SENSE(6)"
  | 0x1B => some "START STOP UNIT"
  | 0x23 => some "READ FORMAT CAPACITIES"
  | 0x25 => some "READ CAPACITY(10)"
  | 0x28 => some "READ(10)"
  | 0x2A => some "WRITE(10)"
  | 0x2B => some "SEEK(10)"
  | 0x2F => some "VERIFY(10)"
  | 0x35 => some "SYNCHRONIZE CACHE(10)"
  | 0x43 => some "READ TOC/PMA/ATIP"
  | 0x44 => some "READ HEADER"
  | 0x45 => some "PLAY AUDIO(10)"
  | 0x47 => some "PLAY AUDIO MSF"
  | 0x48 => some "PLAY AUDIO TRACK/INDEX"
  | 0x4A => some "GET EVENT STATUS NOTIFICATION"
  | 0x5A => some "MODE SENSE(10)"
  | 0xA1 => some "BLANK (MMC)"
  | 0xBB => some "SET CD SPEED (MMC)"
  | _ => none

/-- The Sony vendor CDB table `CUSTOM_ATAPI_CDB`. -/
def CUSTOM_ATAPI_CDB : Nat → Option String := fun op =>
  match op with
  | 0xC1 => some "SONY: READ TOC"
  | 0xC2 => some "SONY: READ SUB-CHANNEL"
  | 0xC3 => some "SONY: READ HEADER"
  | 0xC4 => some "SONY: PLAYBACK STATUS"
  | 0xC5 => some "SONY: PAUSE"
  | 0xC6 => some "SONY: PLAY TRACK"
  | 0xC7 => some "SONY: PLAY MSF"
  | 0xC8 => some "SONY: PLAY AUDIO (LBA+len)"
  | 0xC9 => some "SONY: PLAYBACK CONTROL"
  | _ => none

/-- Uppercase hex digit for a value below 16. -/
def hexDigitChar (n : Nat) : Char :=
  if n < 10 then Char.ofNat (48 + n) else Char.ofNat (55 + n)

/-- Little-endian hex digits of `n`, with `fuel` bounding the recursion. -/
def hexRev (fuel n : Nat) : List Char :=
  match fuel, n with
  | 0, _ => []
  | _, 0 => []
  | f + 1, m => hexDigitChar (m % 16) :: hexRev f (m / 16)

/-- Uppercase hexadecimal rendering of `n` (no leading zeros, `"0"` for 0). -/
def hexStr (n : Nat) : String :=
  if n = 0 then "0" else String.mk (hexRev n n).reverse

/-- Python `format(n, '0wX')`: uppercase hex, zero-padded on the left to at
least `w` digits. -/
def hexPad (w n : Nat) : String :=
  let s := hexStr n
  if s.length < w then String.mk (List.replicate (w - s.length) '0') ++ s else s

/-- Python `f"{n:02X}"`. -/
def hex2 (n : Nat) : String := hexPad 2 n

/-- `Decoder.reg_name`: classify a cycle by chip selects (already converted
to active booleans, as in `cs_sel`), 3-bit address and direction. -/
def reg_name (cs0 cs1 : Bool) (da : Nat) (is_write : Bool) : Option Reg :=
  if cs0 && !cs1 then
    match da with
    | 0 => some .data
    | 1 => some (if is_write then .features else .error)
    | 2 => some .sector_count
    | 3 => some .lba0
    | 4 => some .lba1
    | 5 => some .lba2
    | 6 => some .device
    | 7 => some (if is_write then .command else .status)
    | _ => none
  else if cs1 && !cs0 then
    match da with
    | 6 => some (if is_write then .devctl else .altstatus)
    | 7 => some .drive_addr
    | _ => none
  else none

/-- The Python dictionary key of a register (its name string). -/
def reg_str : Reg → String
  | .data => "data"
  | .features => "features"
  | .error => "error"
  | .sector_count => "sector_count"
  | .lba0 => "lba0"
  | .lba1 => "lba1"
  | .lba2 => "lba2"
  | .device => "device"
  | .command => "command"
  | .status => "status"
  | .devctl => "devctl"
  | .altstatus => "altstatus"
  | .drive_addr => "drive_addr"

/-- The registers handled by the task-file parameter write branch. -/
def param_regs : List Reg :=
  [.features, .sector_count, .lba0, .lba1, .lba2, .device]

/-- The registers the HOB latch redirects (`device` excluded). -/
def hob_regs : List Reg :=
  [.features, .sector_count, .lba0, .lba1, .lba2]

/-- The `tf` dictionary key of a writable task-file register.  Only applied
to members of `param_regs`. -/
def field_of : Reg → TfField
  | .features => .features
  | .sector_count => .sector_count
  | .lba0 => .lba0
  | .lba1 => .lba1
  | .lba2 => .lba2
  | _ => .device

/-- The `hob_`-prefixed shadow counterpart of a primary field
(the Python `'hob_' + reg` key). -/
def hob_field : TfField → TfField
  | .features => .hob_features
  | .sector_count => .hob_sector_count
  | .lba0 => .hob_lba0
  | .lba1 => .hob_lba1
  | .lba2 => .hob_lba2
  | f => f

/-- `Decoder.lba_mode`. -/
def lba_mode (tf : TfField → Nat) : String :=
  if tf TfField.device &&& 0x40 ≠ 0 then "LBA" else "CHS"

/-- `Decoder.lba28`. -/
def lba28 (tf : TfField → Nat) : Nat :=
  let dev_low4 := tf TfField.device &&& 0x0F
  ((dev_low4 <<< 24) ||| (tf TfField.lba2 <<< 16) ||| (tf TfField.lba1 <<< 8) |||
    tf TfField.lba0) &&& 0x0FFFFFFF

/-- `Decoder.lba48`. -/
def lba48 (tf : TfField → Nat) : Nat :=
  let hi := (tf TfField.hob_lba2 <<< 16) ||| (tf TfField.hob_lba1 <<< 8) ||| tf TfField.hob_lba0
  let lo := (tf TfField.lba2 <<< 16) ||| (tf TfField.lba1 <<< 8) ||| tf TfField.lba0
  ((hi <<< 24) ||| lo) &&& 0xFFFFFFFFFFFF

/-- `Decoder.sc48`. -/
def sc48 (tf : TfField → Nat) : Nat :=
  ((tf TfField.hob_sector_count <<< 8) ||| tf TfField.sector_count) &&& 0xFFFF

/-- The `any(self.tf[k] for k in (...))` test in the Command branch:
extended (48-bit) addressing is in effect. -/
def hob_any (tf : TfField → Nat) : Bool :=
  (tf TfField.hob_sector_count != 0) || (tf TfField.hob_lba0 != 0) ||
    (tf TfField.hob_lba1 != 0) || (tf TfField.hob_lba2 != 0)

/-- Mnemonic resolution for a Command write:
`CUSTOM_ATA_COMMANDS.get(op) or ATA_COMMANDS.get(op) or 'UNKNOWN'`. -/
def resolve_ata_name (op : Nat) : String :=
  match CUSTOM_ATA_COMMANDS op with
  | some s => s
  | none =>
    match ATA_COMMANDS op with
    | some s => s
    | none => "UNKNOWN"

/-- Mnemonic resolution for a CDB first byte:
`CUSTOM_ATAPI_CDB.get(c0) or ATAPI_CDB.get(c0) or 'SCSI CDB'`. -/
def resolve_atapi_name (c0 : Nat) : String :=
  match CUSTOM_ATAPI_CDB c0 with
  | some s => s
  | none =>
    match ATAPI_CDB c0 with
    | some s => s
    | none => "SCSI CDB"

/-- Text of the Device Control write annotation. -/
def devctl_text (val : Nat) : String :=
  "DEVCTL write: SRST=" ++ toString ((val >>> 2) &&& 1) ++
    " nIEN=" ++ toString ((val >>> 1) &&& 1) ++ " HOB=" ++ toString ((val >>> 7) &&& 1)

/-- Text of the first-CDB-byte annotation. -/
def cdb0_text (c0 : Nat) : String :=
  "ATAPI CDB[0]=0x" ++ hex2 c0 ++ " " ++ resolve_atapi_name c0

/-- Text of the composite Command annotation (the parameter summary built
in the Command-write branch, including its double-space separators). -/
def cmd_text (tf : TfField → Nat) (op : Nat) : String :=
  let name := resolve_ata_name op
  let mode := lba_mode tf
  let hany := hob_any tf
  let sc := if hany then sc48 tf else tf TfField.sector_count
  let lba := if hany then lba48 tf else lba28 tf
  let sc_str := "SC=" ++ toString sc
  let lba_str := if hany then "LBA48=0x" ++ hexPad 12 lba else "LBA28=0x" ++ hexPad 8 lba
  let dev_str := "DEV=0x" ++ hex2 (tf TfField.device) ++ "(" ++ mode ++ ")"
  "CMD 0x" ++ hex2 op ++ " " ++ name ++ "  " ++ sc_str ++ "  " ++ lba_str ++ "  " ++ dev_str

/-- The squelch test of the decode loop: the squelch-on-DMA option is on
and DMARQ reads true in this snapshot. -/
def squelched (opts : Options) (c : BusCycle) : Prop :=
  opts.squelch_dma ∧ c.dmarq

instance (opts : Options) (c : BusCycle) : Decidable (squelched opts c) :=
  inferInstanceAs (Decidable (_ ∧ _))

/-- Cycle classification as the loop performs it: `cs_sel` (chip selects are
active-low) followed by `reg_name`. -/
def classify (c : BusCycle) : Option Reg :=
  reg_name (!c.cs0_line) (!c.cs1_line) c.da c.isWrite

/-- One iteration of the `while True` loop in `Decoder.decode`, from the
strobe-edge snapshot on: squelch check, classification, and dispatch by
register and direction.  Returns the successor state and the annotations
emitted during the cycle, in order. -/
def decodeCycle (opts : Options) (st : DecState) (c : BusCycle) : DecState × List Ann :=
  if squelched opts c then (st, [])
  else
    match classify c with
    | none => (st, [])
    | some reg =>
      let val := c.val &&& 0xFF
      if reg = .devctl ∧ c.isWrite then
        ({ st with hob := if val &&& 0x80 ≠ 0 then 1 else 0 }, [(5, devctl_text val)])
      else if ((reg = .status ∨ reg = .altstatus) ∧ c.isRead) ∨ (opts.emit_reads ∧ c.isRead) then
        let base : List Ann := [(4, (reg_str reg).toUpper ++ " read: 0x" ++ hex2 val)]
        if !c.intrq then (st, base ++ [(6, "INTRQ cleared")]) else (st, base)
      else if c.isWrite ∧ reg ∈ param_regs then
        if st.hob ≠ 0 ∧ reg ∈ hob_regs then
          ({ st with tf := Function.update st.tf (hob_field (field_of reg)) val },
            [(0, "hob_" ++ reg_str reg ++ " = 0x" ++ hex2 val)])
        else
          ({ st with tf := Function.update st.tf (field_of reg) val },
            [(0, reg_str reg ++ " = 0x" ++ hex2 val)])
      else if reg = .data then
        if st.in_cdb ∧ c.isWrite then
          if opts.parse_cdb then
            let buf := st.cdb_buf ++ [val]
            let first_ann : List Ann := if buf.length = 1 then [(3, cdb0_text val)] else []
            if st.cdb_bytes_expected ≠ 0 ∧ st.cdb_bytes_expected ≤ buf.length then
              ({ st with cdb_buf := buf, in_cdb := false },
                first_ann ++ [(3, "CDB complete (" ++ toString buf.length ++ " bytes)")])
            else ({ st with cdb_buf := buf }, first_ann)
          else (st, [(3, "ATAPI CDB byte")])
        else if opts.ignore_data then (st, [])
        else
          (st, [((if c.isWrite then 0 else 1 : Nat),
            "DATA " ++ (if c.isWrite then "WRITE" else "READ") ++ ": 0x" ++ hex2 val)])
      else if reg = .command ∧ c.isWrite then
        let st1 :=
          if val = 0xA0 then { st with in_cdb := true, cdb_bytes_expected := 12, cdb_buf := [] }
          else st
        (st1, [(2, cmd_text st.tf val)])
      else if opts.emit_reads ∧ c.isRead then
        (st, [(1, reg_str reg ++ " read: 0x" ++ hex2 val)])
      else (st, [])

/-- Fold of `decodeCycle` over a cycle list, concatenating the emitted
annotations in order. -/
def decodeTrace (opts : Options) : DecState → List BusCycle → DecState × List Ann
  | st, [] => (st, [])
  | st, c :: cs =>
    let r := decodeCycle opts st c
    let r2 := decodeTrace opts r.1 cs
    (r2.1, r.2 ++ r2.2)

/-- A write cycle addressing the task-file bank (`CS0-` low, `CS1-` high). -/
def tfWrite (da v : Nat) : BusCycle :=
  { isWrite := true, isRead := false, cs0_line := false, cs1_line := true,
    da := da, val := v, dmarq := false, intrq := true }

/-- A write cycle addressing the control bank (`CS1-` low, `CS0-` high). -/
def ctlWrite (da v : Nat) : BusCycle :=
  { isWrite := true, isRead := false, cs0_line := true, cs1_line := false,
    da := da, val := v, dmarq := false, intrq := true }

/-- A Data-register write cycle carrying byte `b`. -/
def dataWrite (b : Nat) : BusCycle := tfWrite 0 b

/-- A Command-register write cycle carrying opcode `op`. -/
def cmdWrite (op : Nat) : BusCycle := tfWrite 7 op

/-- The option defaults declared in `Decoder.options`: `parse_cdb = true`,
`ignore_data = true`, `squelch_dma = true`, `emit_reads = false`. -/
def default_opts : Options :=
  { parse_cdb := true, ignore_data := true, squelch_dma := true, emit_reads := false }

/-- Spec-side HOB latch value, following the spec's words: the latch is bit 7
of the value of the most recent processed DeviceControl write, and is
initially clear.  Stated independently of `decodeCycle` so that the code's
`hob` field can be compared against it. -/
def spec_hob_latch (opts : Options) : Nat → List BusCycle → Nat
  | h, [] => h
  | h, c :: cs =>
    spec_hob_latch opts
      (if ¬ squelched opts c ∧ classify c = some Reg.devctl ∧ c.isWrite = true then
        (if (c.val &&& 0xFF).testBit 7 then 1 else 0)
      else h) cs

/-- The end-to-end scenario of the spec: DeviceControl 0x00, SectorCount
0x01, LBA0 0x10, LBA1 0x00, LBA2 0x00, Device 0xE0, Command 0x20. -/
def c5_cycles : List BusCycle :=
  [ctlWrite 6 0x00, tfWrite 2 0x01, tfWrite 3 0x10, tfWrite 4 0x00,
   tfWrite 5 0x00, tfWrite 6 0xE0, tfWrite 7 0x20]

/-- Task-file contents of the 48-bit addressing round-trip example:
lba2=0x12, lba1=0x34, lba0=0x56, hob_lba2=0xAA, hob_lba1=0xBB,
hob_lba0=0xCC. -/
def tf_c3 : TfField → Nat := fun f =>
  match f with
  | .lba2 => 0x12
  | .lba1 => 0x34
  | .lba0 => 0x56
  | .hob_lba2 => 0xAA
  | .hob_lba1 => 0xBB
  | .hob_lba0 => 0xCC
  | _ => 0

/-- Task-file contents of the 28-bit addressing round-trip example:
device=0x43, lba2=0x12, lba1=0x34, lba0=0x56, all shadow fields zero. -/
def tf_c4 : TfField → Nat := fun f =>
  match f with
  | .device => 0x43
  | .lba2 => 0x12
  | .lba1 => 0x34
  | .lba0 => 0x56
  | _ => 0

/-- A mid-capture decoder state used as a concrete example: capture active
with three bytes already collected. -/
def st_mid : DecState :=
  { tf := fun _ => 0, hob := 0, in_cdb := true, cdb_bytes_expected := 12,
    cdb_buf := [0x28, 0x00, 0x01] }

/-- A decoder state whose HOB latch is set, used as a concrete example. -/
def st_hob : DecState :=
  { tf := fun _ => 0, hob := 1, in_cdb := false, cdb_bytes_expected := 0, cdb_buf := [] }

/-! ## Helper lemmas -/

theorem land_byte {b : Nat} (h : b < 256) : b &&& 0xFF = b := by
  have h8 : (0xFF : Nat) = 2 ^ 8 - 1 := by norm_num
  rw [h8, Nat.and_pow_two_sub_one_eq_mod]
  exact Nat.mod_eq_of_lt (by norm_num at h ⊢; omega)

theorem shl_or_eq (k a b : Nat) (hb : b < 2 ^ k) : a <<< k ||| b = 2 ^ k * a + b := by
  rw [Nat.shiftLeft_eq, Nat.mul_comm a (2 ^ k)]
  exact (Nat.mul_add_lt_is_or hb a).symm

theorem mul_or_eq (k m b : Nat) (hb : b < 2 ^ k) : (2 ^ k * m) ||| b = 2 ^ k * m + b :=
  (Nat.mul_add_lt_is_or hb m).symm

theorem testBit7_iff (x : Nat) : x &&& 0x80 ≠ 0 ↔ x.testBit 7 = true := by
  have h : x &&& 0x80 = (x.testBit 7).toNat * 2 ^ 7 := by
    have := Nat.and_two_pow x 7
    norm_num at this ⊢
    exact this
  rw [h]
  cases x.testBit 7 <;> simp

/-! ## C6: register classification decision table -/

/-- C6: register classification is a pure total function of
(cs0 active, cs1 active, address, direction).  It follows the decision table
(task-file bank under cs0-only, control bank under cs1-only), and returns
`none` whenever both or neither chip select is asserted or the address has
no entry in the selected bank. -/
theorem classify_decision_table :
    (∀ w : Bool, reg_name true false 0 w = some Reg.data) ∧
    (reg_name true false 1 true = some Reg.features) ∧
    (reg_name true false 1 false = some Reg.error) ∧
    (∀ w : Bool, reg_name true false 2 w = some Reg.sector_count) ∧
    (∀ w : Bool, reg_name true false 3 w = some Reg.lba0) ∧
    (∀ w : Bool, reg_name true false 4 w = some Reg.lba1) ∧
    (∀ w : Bool, reg_name true false 5 w = some Reg.lba2) ∧
    (∀ w : Bool, reg_name true false 6 w = some Reg.device) ∧
    (reg_name true false 7 true = some Reg.command) ∧
    (reg_name true false 7 false = some Reg.status) ∧
    (reg_name false true 6 true = some Reg.devctl) ∧
    (reg_name false true 6 false = some Reg.altstatus) ∧
    (∀ w : Bool, reg_name false true 7 w = some Reg.drive_addr) ∧
    (∀ (b : Bool) (da : Nat) (w : Bool), reg_name b b da w = none) ∧
    (∀ w : Bool, reg_name false true 0 w = none) ∧
    (∀ w : Bool, reg_name false true 1 w = none) ∧
    (∀ w : Bool, reg_name false true 2 w = none) ∧
    (∀ w : Bool, reg_name false true 3 w = none) ∧
    (∀ w : Bool, reg_name false true 4 w = none) ∧
    (∀ w : Bool, reg_name false true 5 w = none) ∧
    (∀ (n : Nat) (w : Bool), reg_name true false (n + 8) w = none) ∧
    (∀ (n : Nat) (w : Bool), reg_name false true (n + 8) w = none) :=
  ⟨fun w => by cases w <;> rfl, rfl, rfl,
   fun w => by cases w <;> rfl, fun w => by cases w <;> rfl,
   fun w => by cases w <;> rfl, fun w => by cases w <;> rfl,
   fun w => by cases w <;> rfl, rfl, rfl, rfl, rfl,
   fun w => by cases w <;> rfl,
   fun b da w => by cases b <;> rfl,
   fun w => by cases w <;> rfl, fun w => by cases w <;> rfl,
   fun w => by cases w <;> rfl, fun w => by cases w <;> rfl,
   fun w => by cases w <;> rfl, fun w => by cases w <;> rfl,
   fun n w => rfl, fun n w => rfl⟩

/-! ## C7: DMA squelch -/

/-- C7: when the squelch option is enabled and DMARQ reads true at the
strobe edge, the cycle is discarded: no annotation is emitted and the whole
decoder state (task-file shadows, HOB latch, CDB capture) is unchanged. -/
theorem dma_squelch_no_effect (opts : Options) (st : DecState) (c : BusCycle)
    (hs : opts.squelch_dma = true) (hd : c.dmarq = true) :
    decodeCycle opts st c = (st, []) := by
  simp [decodeCycle, squelched, hs, hd]

theorem and_pow_ne_iff (x i : Nat) : x &&& 2 ^ i ≠ 0 ↔ x.testBit i = true := by
  rw [Nat.and_two_pow]
  cases x.testBit i <;> simp

theorem or3_eq (a b c : Nat) (hb : b < 256) (hc : c < 256) :
    a <<< 16 ||| b <<< 8 ||| c = 2 ^ 16 * a + 2 ^ 8 * b + c := by
  have e1 : a <<< 16 ||| b <<< 8 = 2 ^ 16 * a + 2 ^ 8 * b := by
    rw [shl_or_eq 16 a (b <<< 8) (Nat.shiftLeft_lt (show b < 2 ^ 8 from hb)),
      Nat.shiftLeft_eq]
    ring
  rw [e1]
  have e2 : 2 ^ 16 * a + 2 ^ 8 * b = 2 ^ 8 * (2 ^ 8 * a + b) := by ring
  rw [e2, mul_or_eq 8 (2 ^ 8 * a + b) c (show c < 2 ^ 8 from hc)]

theorem or4_eq (d l2 l1 l0 : Nat) (hd : d < 16) (h2 : l2 < 256) (h1 : l1 < 256)
    (h0 : l0 < 256) :
    (d <<< 24 ||| l2 <<< 16 ||| l1 <<< 8 ||| l0) &&& 0x0FFFFFFF =
      2 ^ 24 * d + 2 ^ 16 * l2 + 2 ^ 8 * l1 + l0 := by
  have e1 : d <<< 24 ||| l2 <<< 16 = 2 ^ 24 * d + 2 ^ 16 * l2 := by
    rw [shl_or_eq 24 d (l2 <<< 16) (Nat.shiftLeft_lt (show l2 < 2 ^ 8 from h2)),
      Nat.shiftLeft_eq]
    ring
  have e2 : (2 ^ 24 * d + 2 ^ 16 * l2) ||| l1 <<< 8 =
      2 ^ 24 * d + 2 ^ 16 * l2 + 2 ^ 8 * l1 := by
    have f : 2 ^ 24 * d + 2 ^ 16 * l2 = 2 ^ 16 * (2 ^ 8 * d + l2) := by ring
    rw [f, mul_or_eq 16 (2 ^ 8 * d + l2) (l1 <<< 8)
      (Nat.shiftLeft_lt (show l1 < 2 ^ 8 from h1)), Nat.shiftLeft_eq]
    ring
  have e3 : (2 ^ 24 * d + 2 ^ 16 * l2 + 2 ^ 8 * l1) ||| l0 =
      2 ^ 24 * d + 2 ^ 16 * l2 + 2 ^ 8 * l1 + l0 := by
    have f : 2 ^ 24 * d + 2 ^ 16 * l2 + 2 ^ 8 * l1 =
        2 ^ 8 * (2 ^ 16 * d + 2 ^ 8 * l2 + l1) := by ring
    rw [f, mul_or_eq 8 (2 ^ 16 * d + 2 ^ 8 * l2 + l1) l0 (show l0 < 2 ^ 8 from h0)]
  rw [e1, e2, e3]
  have hm : (0x0FFFFFFF : Nat) = 2 ^ 28 - 1 := by norm_num
  rw [hm, Nat.and_pow_two_sub_one_eq_mod]
  exact Nat.mod_eq_of_lt (by norm_num; omega)

theorem or6_mask_eq (a2 a1 a0 l2 l1 l0 : Nat)
    (ga2 : a2 < 256) (ga1 : a1 < 256) (ga0 : a0 < 256)
    (g2 : l2 < 256) (g1 : l1 < 256) (g0 : l0 < 256) :
    ((a2 <<< 16 ||| a1 <<< 8 ||| a0) <<< 24 ||| (l2 <<< 16 ||| l1 <<< 8 ||| l0)) &&&
        0xFFFFFFFFFFFF =
      2 ^ 40 * a2 + 2 ^ 32 * a1 + 2 ^ 24 * a0 + 2 ^ 16 * l2 + 2 ^ 8 * l1 + l0 := by
  rw [or3_eq a2 a1 a0 ga1 ga0, or3_eq l2 l1 l0 g1 g0]
  rw [shl_or_eq 24 (2 ^ 16 * a2 + 2 ^ 8 * a1 + a0) (2 ^ 16 * l2 + 2 ^ 8 * l1 + l0)
    (by norm_num; omega)]
  have hm : (0xFFFFFFFFFFFF : Nat) = 2 ^ 48 - 1 := by norm_num
  rw [hm, Nat.and_pow_two_sub_one_eq_mod, Nat.mod_eq_of_lt (by norm_num; omega)]
  ring

theorem sc48_eq (tf : TfField → Nat) (hh : tf TfField.hob_sector_count < 256)
    (hs : tf TfField.sector_count < 256) :
    sc48 tf = 2 ^ 8 * tf TfField.hob_sector_count + tf TfField.sector_count := by
  simp only [sc48]
  rw [shl_or_eq 8 (tf TfField.hob_sector_count) (tf TfField.sector_count)
    (show tf TfField.sector_count < 2 ^ 8 from hs)]
  have hm : (0xFFFF : Nat) = 2 ^ 16 - 1 := by norm_num
  rw [hm, Nat.and_pow_two_sub_one_eq_mod]
  exact Nat.mod_eq_of_lt (by norm_num; omega)

theorem lba28_eq (tf : TfField → Nat) (h0 : tf TfField.lba0 < 256)
    (h1 : tf TfField.lba1 < 256) (h2 : tf TfField.lba2 < 256) :
    lba28 tf = 2 ^ 24 * (tf TfField.device % 16) + 2 ^ 16 * tf TfField.lba2 +
      2 ^ 8 * tf TfField.lba1 + tf TfField.lba0 := by
  simp only [lba28]
  have hd : tf TfField.device &&& 0x0F = tf TfField.device % 16 := by
    have h4 : (0x0F : Nat) = 2 ^ 4 - 1 := by norm_num
    rw [h4, Nat.and_pow_two_sub_one_eq_mod]
  rw [hd]
  exact or4_eq (tf TfField.device % 16) (tf TfField.lba2) (tf TfField.lba1)
    (tf TfField.lba0) (Nat.mod_lt _ (by norm_num)) h2 h1 h0

theorem lba48_eq (tf : TfField → Nat)
    (h0 : tf TfField.lba0 < 256) (h1 : tf TfField.lba1 < 256) (h2 : tf TfField.lba2 < 256)
    (g0 : tf TfField.hob_lba0 < 256) (g1 : tf TfField.hob_lba1 < 256)
    (g2 : tf TfField.hob_lba2 < 256) :
    lba48 tf = 2 ^ 40 * tf TfField.hob_lba2 + 2 ^ 32 * tf TfField.hob_lba1 +
      2 ^ 24 * tf TfField.hob_lba0 + 2 ^ 16 * tf TfField.lba2 +
      2 ^ 8 * tf TfField.lba1 + tf TfField.lba0 := by
  simp only [lba48]
  exact or6_mask_eq (tf TfField.hob_lba2) (tf TfField.hob_lba1) (tf TfField.hob_lba0)
    (tf TfField.lba2) (tf TfField.lba1) (tf TfField.lba0) g2 g1 g0 h2 h1 h0

/-! ## C1: HOB redirection -/

theorem hob_step (opts : Options) (st : DecState) (c : BusCycle) :
    (decodeCycle opts st c).1.hob =
      (if ¬ squelched opts c ∧ classify c = some Reg.devctl ∧ c.isWrite = true then
        (if (c.val &&& 0xFF).testBit 7 then 1 else 0)
      else st.hob) := by
  by_cases hsq : squelched opts c
  · simp [decodeCycle, hsq]
  · rcases hcl : classify c with _ | reg
    · simp [decodeCycle, hsq, hcl]
    · simp only [decodeCycle]
      rw [if_neg hsq, hcl]
      cases reg <;>
        simp_all [param_regs, hob_regs, testBit7_iff] <;>
        split_ifs <;> simp_all

theorem hob_trace (opts : Options) :
    ∀ (cs : List BusCycle) (st : DecState),
      (decodeTrace opts st cs).1.hob = spec_hob_latch opts st.hob cs := by
  intro cs
  induction cs with
  | nil => intro st; rfl
  | cons c cs ih =>
    intro st
    simp only [decodeTrace, spec_hob_latch]
    rw [ih]
    congr 1
    exact hob_step opts st c

/-- C1: a write to one of {Features, SectorCount, LBA0, LBA1, LBA2} lands in
the shadow field exactly when the HOB latch is set; a Device write always
lands in the primary field; the latch itself changes only on a DeviceControl
write, to bit 7 of the written value; over any trace the latch equals bit 7
of the most recent processed DeviceControl write (initially clear). -/
theorem hob_redirection_correct (opts : Options) (st : DecState) (c : BusCycle) (r : Reg) :
    (¬ squelched opts c → c.isWrite = true → c.isRead = false →
      classify c = some r → r ∈ hob_regs →
      (decodeCycle opts st c).1.tf =
        (if st.hob ≠ 0 then
          Function.update st.tf (hob_field (field_of r)) (c.val &&& 0xFF)
        else Function.update st.tf (field_of r) (c.val &&& 0xFF))) ∧
    (¬ squelched opts c → c.isWrite = true → c.isRead = false →
      classify c = some Reg.device →
      (decodeCycle opts st c).1.tf = Function.update st.tf TfField.device (c.val &&& 0xFF)) ∧
    ((decodeCycle opts st c).1.hob =
      (if ¬ squelched opts c ∧ classify c = some Reg.devctl ∧ c.isWrite = true then
        (if (c.val &&& 0xFF).testBit 7 then 1 else 0)
      else st.hob)) ∧
    (∀ cs : List BusCycle, (decodeTrace opts initState cs).1.hob = spec_hob_latch opts 0 cs) := by
  refine ⟨?_, ?_, hob_step opts st c, fun cs => hob_trace opts cs initState⟩
  · intro hsq hw hr hcl hmem
    fin_cases hmem <;>
      (simp only [decodeCycle]
       rw [if_neg hsq, hcl]
       simp_all [param_regs, hob_regs, field_of, hob_field]
       split_ifs <;> simp_all)
  · intro hsq hw hr hcl
    simp only [decodeCycle]
    rw [if_neg hsq, hcl]
    simp_all [param_regs, hob_regs, field_of]

/-- Instances of `hob_redirection_correct`: with the latch set an LBA0 write
is stored into `hob_lba0`, a Device write is stored into the primary
`device` field, and a DeviceControl write with bit 7 clear clears the
latch. -/
theorem hob_redirection_correct_witness :
    ((decodeCycle default_opts st_hob (tfWrite 3 0x12)).1.tf =
      (if st_hob.hob ≠ 0 then
        Function.update st_hob.tf (hob_field (field_of Reg.lba0)) (0x12 &&& 0xFF)
      else Function.update st_hob.tf (field_of Reg.lba0) (0x12 &&& 0xFF))) ∧
    ((decodeCycle default_opts st_hob (tfWrite 6 0xE0)).1.tf =
      Function.update st_hob.tf TfField.device (0xE0 &&& 0xFF)) ∧
    ((decodeCycle default_opts st_hob (ctlWrite 6 0x00)).1.hob =
      (if ¬ squelched default_opts (ctlWrite 6 0x00) ∧
          classify (ctlWrite 6 0x00) = some Reg.devctl ∧ (ctlWrite 6 0x00).isWrite = true then
        (if ((ctlWrite 6 0x00).val &&& 0xFF).testBit 7 then 1 else 0)
      else st_hob.hob)) ∧
    (decodeTrace default_opts initState [ctlWrite 6 0x80]).1.hob =
      spec_hob_latch default_opts 0 [ctlWrite 6 0x80] :=
  ⟨(hob_redirection_correct default_opts st_hob (tfWrite 3 0x12) Reg.lba0).1
      (by decide) rfl rfl (by decide) (by decide),
   (hob_redirection_correct default_opts st_hob (tfWrite 6 0xE0) Reg.device).2.1
      (by decide) rfl rfl (by decide),
   (hob_redirection_correct default_opts st_hob (ctlWrite 6 0x00) Reg.devctl).2.2.1,
   (hob_redirection_correct default_opts st_hob (ctlWrite 6 0x00) Reg.devctl).2.2.2
      [ctlWrite 6 0x80]⟩

/-! ## C3: 48-bit (extended) addressing -/

/-- C3: the addressing derived at a Command write is extended exactly when
one of the four shadow fields hob_sector_count, hob_lba0, hob_lba1, hob_lba2
is nonzero (hob_features does not participate); when extended the sector
count is (hob_sector_count << 8) | sector_count and the LBA assembles the
six bytes as hob_lba2:hob_lba1:hob_lba0:lba2:lba1:lba0; on the round-trip
example the LBA is 0xAABBCC123456. -/
theorem lba48_extended_addressing (tf : TfField → Nat) :
    (hob_any tf = true ↔
      ¬ (tf TfField.hob_sector_count = 0 ∧ tf TfField.hob_lba0 = 0 ∧
        tf TfField.hob_lba1 = 0 ∧ tf TfField.hob_lba2 = 0)) ∧
    (∀ x : Nat, hob_any (Function.update tf TfField.hob_features x) = hob_any tf) ∧
    (tf TfField.hob_sector_count < 256 → tf TfField.sector_count < 256 →
      sc48 tf = 2 ^ 8 * tf TfField.hob_sector_count + tf TfField.sector_count) ∧
    (tf TfField.lba0 < 256 → tf TfField.lba1 < 256 → tf TfField.lba2 < 256 →
      tf TfField.hob_lba0 < 256 → tf TfField.hob_lba1 < 256 → tf TfField.hob_lba2 < 256 →
      lba48 tf = 2 ^ 40 * tf TfField.hob_lba2 + 2 ^ 32 * tf TfField.hob_lba1 +
        2 ^ 24 * tf TfField.hob_lba0 + 2 ^ 16 * tf TfField.lba2 +
        2 ^ 8 * tf TfField.lba1 + tf TfField.lba0) ∧
    (hob_any tf_c3 = true ∧ lba48 tf_c3 = 0xAABBCC123456) := by
  refine ⟨?_, ?_, sc48_eq tf, lba48_eq tf, by decide, by decide⟩
  · simp only [hob_any, Bool.or_eq_true, bne_iff_ne, ne_eq]
    tauto
  · intro x
    simp [hob_any, Function.update]

/-- Instance of `lba48_extended_addressing` on the round-trip example
register file. -/
theorem lba48_extended_addressing_witness :
    sc48 tf_c3 = 2 ^ 8 * tf_c3 TfField.hob_sector_count + tf_c3 TfField.sector_count ∧
    lba48 tf_c3 = 2 ^ 40 * tf_c3 TfField.hob_lba2 + 2 ^ 32 * tf_c3 TfField.hob_lba1 +
      2 ^ 24 * tf_c3 TfField.hob_lba0 + 2 ^ 16 * tf_c3 TfField.lba2 +
      2 ^ 8 * tf_c3 TfField.lba1 + tf_c3 TfField.lba0 :=
  ⟨(lba48_extended_addressing tf_c3).2.2.1 (by decide) (by decide),
   (lba48_extended_addressing tf_c3).2.2.2.1 (by decide) (by decide) (by decide)
     (by decide) (by decide) (by decide)⟩

/-! ## C4: 28-bit addressing -/

/-- C4: with all shadow fields zero the derived addressing is not extended,
its mode is LBA exactly when bit 6 of the device register is set, and the
LBA is (device & 0x0F) : lba2 : lba1 : lba0; on the round-trip example
(device=0x43, lba2=0x12, lba1=0x34, lba0=0x56) it is 0x03123456 with mode
LBA. -/
theorem lba28_addressing (tf : TfField → Nat) :
    (tf TfField.hob_sector_count = 0 → tf TfField.hob_lba0 = 0 →
      tf TfField.hob_lba1 = 0 → tf TfField.hob_lba2 = 0 → hob_any tf = false) ∧
    (lba_mode tf = "LBA" ↔ (tf TfField.device).testBit 6 = true) ∧
    (tf TfField.lba0 < 256 → tf TfField.lba1 < 256 → tf TfField.lba2 < 256 →
      lba28 tf = 2 ^ 24 * (tf TfField.device % 16) + 2 ^ 16 * tf TfField.lba2 +
        2 ^ 8 * tf TfField.lba1 + tf TfField.lba0) ∧
    (lba_mode tf_c4 = "LBA" ∧ hob_any tf_c4 = false ∧ lba28 tf_c4 = 0x03123456) := by
  refine ⟨?_, ?_, lba28_eq tf, by decide, by decide, by decide⟩
  · intro a b c d
    simp [hob_any, a, b, c, d]
  · have h6 : tf TfField.device &&& 0x40 = tf TfField.device &&& 2 ^ 6 := by norm_num
    simp only [lba_mode]
    split_ifs with h
    · rw [h6] at h
      simp [(and_pow_ne_iff (tf TfField.device) 6).mp h]
    · rw [h6] at h
      have hb : ¬ (tf TfField.device).testBit 6 = true := fun ht => h ((and_pow_ne_iff _ 6).mpr ht)
      simp [hb]

/-- Instance of `lba28_addressing` on the round-trip example register
file. -/
theorem lba28_addressing_witness :
    hob_any tf_c4 = false ∧
    lba28 tf_c4 = 2 ^ 24 * (tf_c4 TfField.device % 16) + 2 ^ 16 * tf_c4 TfField.lba2 +
      2 ^ 8 * tf_c4 TfField.lba1 + tf_c4 TfField.lba0 :=
  ⟨(lba28_addressing tf_c4).1 rfl rfl rfl rfl,
   (lba28_addressing tf_c4).2.2.1 (by decide) (by decide) (by decide)⟩

/-! ## CDB capture step lemmas -/

theorem cmd_step (opts : Options) (st : DecState) (op : Nat) (hop : op < 256) :
    decodeCycle opts st (cmdWrite op) =
      ((if op = 0xA0 then { st with in_cdb := true, cdb_bytes_expected := 12, cdb_buf := [] }
        else st),
       [(2, cmd_text st.tf op)]) := by
  simp only [decodeCycle]
  rw [if_neg (show ¬ squelched opts (cmdWrite op) by simp [squelched, cmdWrite, tfWrite])]
  rw [show classify (cmdWrite op) = some Reg.command from rfl]
  rw [show (cmdWrite op).val &&& 0xFF = op from land_byte hop]
  simp [cmdWrite, tfWrite, param_regs]

theorem data_step (opts : Options) (st : DecState) (b : Nat)
    (hp : opts.parse_cdb = true) (hc : st.in_cdb = true) :
    decodeCycle opts st (dataWrite b) =
      (if st.cdb_bytes_expected ≠ 0 ∧ st.cdb_bytes_expected ≤ st.cdb_buf.length + 1 then
        ({ st with cdb_buf := st.cdb_buf ++ [b &&& 0xFF], in_cdb := false },
          (if st.cdb_buf.length + 1 = 1 then [((3 : Nat), cdb0_text (b &&& 0xFF))] else []) ++
            [((3 : Nat), "CDB complete (" ++ toString (st.cdb_buf.length + 1) ++ " bytes)")])
      else ({ st with cdb_buf := st.cdb_buf ++ [b &&& 0xFF] },
        if st.cdb_buf.length + 1 = 1 then [((3 : Nat), cdb0_text (b &&& 0xFF))] else [])) := by
  simp only [decodeCycle]
  rw [if_neg (show ¬ squelched opts (dataWrite b) by simp [squelched, dataWrite, tfWrite])]
  rw [show classify (dataWrite b) = some Reg.data from rfl]
  simp [dataWrite, tfWrite, param_regs, hc, hp]

theorem capture_start (opts : Options) (st : DecState) (hp : opts.parse_cdb = true)
    (b : Nat) (hb : b < 256) (hc : st.in_cdb = true) (he : st.cdb_bytes_expected = 12)
    (hbuf : st.cdb_buf = []) :
    decodeCycle opts st (dataWrite b) =
      ({ st with cdb_buf := [b] }, [(3, cdb0_text b)]) := by
  rw [data_step opts st b hp hc, land_byte hb, hbuf, he]
  simp

theorem cdb_collect (opts : Options) (hp : opts.parse_cdb = true) :
    ∀ (bs : List Nat) (st : DecState), st.in_cdb = true → st.cdb_bytes_expected = 12 →
      st.cdb_buf ≠ [] → st.cdb_buf.length + bs.length = 12 → bs ≠ [] →
      (∀ b ∈ bs, b < 256) →
      decodeTrace opts st (bs.map dataWrite) =
        ({ st with in_cdb := false, cdb_buf := st.cdb_buf ++ bs },
          [(3, "CDB complete (12 bytes)")]) := by
  intro bs
  induction bs with
  | nil => intro st _ _ _ _ hne _; exact absurd rfl hne
  | cons b rest ih =>
    intro st hc he hbne hlen _ hb
    have hb256 : b < 256 := hb b (List.mem_cons_self b rest)
    have hlb : st.cdb_buf.length ≠ 0 := by
      simpa [List.length_eq_zero] using hbne
    simp only [List.map, decodeTrace]
    rw [data_step opts st b hp hc, land_byte hb256]
    rcases rest with _ | ⟨r, rest2⟩
    · have h12 : st.cdb_buf.length + 1 = 12 := by
        simpa using hlen
      rw [if_pos (by omega), if_neg (by omega), h12]
      simp [decodeTrace]
      decide
    · have hlt : st.cdb_buf.length + 1 < 12 := by
        simp at hlen
        omega
      rw [if_neg (by omega), if_neg (by omega)]
      have ihx := ih { st with cdb_buf := st.cdb_buf ++ [b] } hc he (by simp)
        (by simp at hlen ⊢; omega) (by simp)
        (fun x hx => hb x (List.mem_cons_of_mem b hx))
      simp only [List.map] at ihx
      simp [ihx, List.append_assoc]

/-! ## C2: CDB capture completeness -/

/-- C2: with CDB parsing enabled, a PACKET (0xA0) Command write followed by
exactly 12 Data writes collects exactly those 12 bytes, annotates the first
with its resolved mnemonic, emits exactly one completion annotation at the
12th byte and deactivates the capture there; a 13th Data write is then an
ordinary Data access governed by the ignore_data option and leaves the state
unchanged. -/
theorem cdb_capture_completeness (opts : Options) (st0 : DecState)
    (hp : opts.parse_cdb = true) (b0 : Nat) (hb0 : b0 < 256) (rest : List Nat)
    (hrest : ∀ b ∈ rest, b < 256) (hlen : rest.length = 11)
    (b13 : Nat) (hb13 : b13 < 256) :
    decodeTrace opts st0 (cmdWrite 0xA0 :: (b0 :: rest).map dataWrite) =
      ({ st0 with in_cdb := false, cdb_bytes_expected := 12, cdb_buf := b0 :: rest },
        [(2, cmd_text st0.tf 0xA0), (3, cdb0_text b0), (3, "CDB complete (12 bytes)")]) ∧
    decodeCycle opts
        { st0 with in_cdb := false, cdb_bytes_expected := 12, cdb_buf := b0 :: rest }
        (dataWrite b13) =
      ({ st0 with in_cdb := false, cdb_bytes_expected := 12, cdb_buf := b0 :: rest },
        (if opts.ignore_data then [] else [((0 : Nat), "DATA WRITE: 0x" ++ hex2 b13)])) := by
  constructor
  · simp only [List.map, decodeTrace]
    rw [cmd_step opts st0 0xA0 (by norm_num), if_pos rfl]
    rw [capture_start opts
      { st0 with in_cdb := true, cdb_bytes_expected := 12, cdb_buf := [] } hp b0 hb0
      rfl rfl rfl]
    rw [cdb_collect opts hp rest
      { st0 with in_cdb := true, cdb_bytes_expected := 12, cdb_buf := [b0] } rfl rfl
      (by simp) (by simp [hlen]) (by rintro rfl; simp at hlen) hrest]
    simp
  · simp only [decodeCycle]
    rw [if_neg (show ¬ squelched opts (dataWrite b13) by simp [squelched, dataWrite, tfWrite])]
    rw [show classify (dataWrite b13) = some Reg.data from rfl]
    rw [show (dataWrite b13).val &&& 0xFF = b13 from land_byte hb13]
    rcases hik : opts.ignore_data <;>
      simp [dataWrite, tfWrite, param_regs, hik]

/-- Instance of `cdb_capture_completeness`: an INQUIRY CDB (first byte 0x12)
of 12 bytes under the default options. -/
theorem cdb_capture_completeness_witness :
    decodeTrace default_opts initState
        (cmdWrite 0xA0 :: ((0x12 :: [0, 0, 0, 0, 0, 0, 0, 0, 0, 0, 0]).map dataWrite)) =
      ({ initState with
          in_cdb := false
          cdb_bytes_expected := 12
          cdb_buf := 0x12 :: [0, 0, 0, 0, 0, 0, 0, 0, 0, 0, 0] },
        [(2, cmd_text initState.tf 0xA0), (3, cdb0_text 0x12),
          (3, "CDB complete (12 bytes)")]) ∧
    decodeCycle default_opts
        { initState with
          in_cdb := false
          cdb_bytes_expected := 12
          cdb_buf := 0x12 :: [0, 0, 0, 0, 0, 0, 0, 0, 0, 0, 0] }
        (dataWrite 0x55) =
      ({ initState with
          in_cdb := false
          cdb_bytes_expected := 12
          cdb_buf := 0x12 :: [0, 0, 0, 0, 0, 0, 0, 0, 0, 0, 0] },
        (if default_opts.ignore_data then []
          else [((0 : Nat), "DATA WRITE: 0x" ++ hex2 0x55)])) :=
  cdb_capture_completeness default_opts initState rfl 0x12 (by norm_num)
    [0, 0, 0, 0, 0, 0, 0, 0, 0, 0, 0] (by decide) rfl 0x55 (by norm_num)

/-! ## C8: PACKET restart mid-capture -/

/-- C8: a Command write of opcode 0xA0 while a capture is already active
unconditionally restarts it — collected bytes are discarded, the expected
length is reset to 12 — and no warning annotation is emitted about the
discarded bytes (only the composite command annotation appears). -/
theorem packet_restart_discards (opts : Options) (st : DecState) (hc : st.in_cdb = true) :
    decodeCycle opts st (cmdWrite 0xA0) =
      ({ st with in_cdb := true, cdb_bytes_expected := 12, cdb_buf := [] },
        [(2, cmd_text st.tf 0xA0)]) ∧
    ∀ a ∈ (decodeCycle opts st (cmdWrite 0xA0)).2, a.1 ≠ 7 := by
  have h := cmd_step opts st 0xA0 (by norm_num)
  rw [if_pos rfl] at h
  refine ⟨h, ?_⟩
  rw [h]
  intro a ha
  simp only [List.mem_singleton] at ha
  simp [ha]

/-- Instance of `packet_restart_discards` on a state holding three
partially collected bytes. -/
theorem packet_restart_discards_witness :
    decodeCycle default_opts st_mid (cmdWrite 0xA0) =
      ({ st_mid with in_cdb := true, cdb_bytes_expected := 12, cdb_buf := [] },
        [(2, cmd_text st_mid.tf 0xA0)]) :=
  (packet_restart_discards default_opts st_mid rfl).1

/-! ## C9: unknown opcode fallback -/

/-- C9: the Command mnemonic is resolved from the custom override table
first, then the standard table, and falls back to "UNKNOWN" when the opcode
is in neither; the cycle is still processed and the composite command
annotation is emitted. -/
theorem unknown_opcode_fallback (opts : Options) (st : DecState) (op : Nat)
    (hop : op < 256) :
    (∀ s, CUSTOM_ATA_COMMANDS op = some s → resolve_ata_name op = s) ∧
    (CUSTOM_ATA_COMMANDS op = none → ∀ s, ATA_COMMANDS op = some s →
      resolve_ata_name op = s) ∧
    (CUSTOM_ATA_COMMANDS op = none → ATA_COMMANDS op = none →
      resolve_ata_name op = "UNKNOWN") ∧
    decodeCycle opts st (cmdWrite op) =
      ((if op = 0xA0 then { st with in_cdb := true, cdb_bytes_expected := 12, cdb_buf := [] }
        else st),
       [(2, cmd_text st.tf op)]) := by
  refine ⟨?_, ?_, ?_, cmd_step opts st op hop⟩
  · intro s hs
    simp [resolve_ata_name, hs]
  · intro hnone s hs
    simp [resolve_ata_name, hnone, hs]
  · intro h1 h2
    simp [resolve_ata_name, h1, h2]

/-- Instance of `unknown_opcode_fallback` at opcode 0x01, which neither
table contains. -/
theorem unknown_opcode_fallback_witness :
    resolve_ata_name 0x01 = "UNKNOWN" ∧
    decodeCycle default_opts initState (cmdWrite 0x01) =
      ((if (0x01 : Nat) = 0xA0 then
          { initState with in_cdb := true, cdb_bytes_expected := 12, cdb_buf := [] }
        else initState),
       [(2, cmd_text initState.tf 0x01)]) :=
  ⟨(unknown_opcode_fallback default_opts initState 0x01 (by norm_num)).2.2.1 rfl rfl,
   (unknown_opcode_fallback default_opts initState 0x01 (by norm_num)).2.2.2⟩

/-! ## C10: capture never completes with parsing disabled -/

theorem in_cdb_step (opts : Options) (hp : opts.parse_cdb = false)
    (st : DecState) (c : BusCycle) (hc : st.in_cdb = true) :
    (decodeCycle opts st c).1.in_cdb = true := by
  by_cases hsq : squelched opts c
  · simp [decodeCycle, hsq, hc]
  · rcases hcl : classify c with _ | reg
    · simp [decodeCycle, hsq, hcl, hc]
    · simp only [decodeCycle]
      rw [if_neg hsq, hcl]
      cases reg <;> simp_all [param_regs, hob_regs] <;> split_ifs <;> simp_all

/-- C10: with `parse_cdb` disabled, an activated CDB capture is never
deactivated: every cycle preserves `in_cdb`, no bytes are ever appended to
the collected buffer (it is only left alone or cleared by a PACKET restart),
the capture survives any trace, and every Data write while capturing emits
the generic CDB-byte marker and changes nothing. -/
theorem parse_cdb_disabled_capture_persists (opts : Options)
    (hp : opts.parse_cdb = false) :
    (∀ (st : DecState) (c : BusCycle), st.in_cdb = true →
      (decodeCycle opts st c).1.in_cdb = true) ∧
    (∀ (st : DecState) (c : BusCycle),
      (decodeCycle opts st c).1.cdb_buf = st.cdb_buf ∨
        (decodeCycle opts st c).1.cdb_buf = []) ∧
    (∀ (st : DecState) (cs : List BusCycle), st.in_cdb = true →
      (decodeTrace opts st cs).1.in_cdb = true) ∧
    (∀ (st : DecState) (c : BusCycle), st.in_cdb = true → ¬ squelched opts c →
      classify c = some Reg.data → c.isWrite = true → c.isRead = false →
      decodeCycle opts st c = (st, [(3, "ATAPI CDB byte")])) := by
  refine ⟨in_cdb_step opts hp, ?_, ?_, ?_⟩
  · intro st c
    by_cases hsq : squelched opts c
    · simp [decodeCycle, hsq]
    · rcases hcl : classify c with _ | reg
      · simp [decodeCycle, hsq, hcl]
      · simp only [decodeCycle]
        rw [if_neg hsq, hcl]
        cases reg <;> simp_all [param_regs, hob_regs] <;> split_ifs <;> simp_all
  · intro st cs
    induction cs generalizing st with
    | nil => intro hc; exact hc
    | cons c cs ih =>
      intro hc
      simp only [decodeTrace]
      exact ih _ (in_cdb_step opts hp st c hc)
  · intro st c hc hsq hcl hw hr
    simp only [decodeCycle]
    rw [if_neg hsq, hcl]
    simp [hc, hp, hw, hr, param_regs]

/-- Instance of `parse_cdb_disabled_capture_persists` on a mid-capture
state. -/
theorem parse_cdb_disabled_capture_persists_witness :
    (decodeCycle { default_opts with parse_cdb := false } st_mid (dataWrite 0x28)).1.in_cdb =
      true ∧
    decodeCycle { default_opts with parse_cdb := false } st_mid (dataWrite 0x28) =
      (st_mid, [(3, "ATAPI CDB byte")]) :=
  ⟨(parse_cdb_disabled_capture_persists { default_opts with parse_cdb := false } rfl).1
      st_mid (dataWrite 0x28) rfl,
   (parse_cdb_disabled_capture_persists { default_opts with parse_cdb := false } rfl).2.2.2
      st_mid (dataWrite 0x28) rfl (by decide) rfl rfl rfl⟩

/-! ## C5: end-to-end scenario -/

/-- C5 counterexample: the composite Command annotation of the end-to-end
scenario does not carry the single-spaced text the claim quotes — the
format string separates the summary fields with two spaces. -/
theorem end_to_end_claimed_text_false :
    ((2 : Nat), "CMD 0x20 READ SECTORS SC=1 LBA28=0x00000010 DEV=0xE0(LBA)") ∉
      (decodeTrace default_opts initState c5_cycles).2 := by
  decide

/-- C5 (amended): the end-to-end scenario emits, in order, one DevCtl
annotation with HOB=0, five register-write annotations (sector_count, lba0,
lba1, lba2, device) and one Command annotation whose text reads
"CMD 0x20 READ SECTORS  SC=1  LBA28=0x00000010  DEV=0xE0(LBA)" (two spaces
between the summary fields). -/
theorem end_to_end_scenario :
    (decodeTrace default_opts initState c5_cycles).2 =
      [(5, "DEVCTL write: SRST=0 nIEN=0 HOB=0"),
       (0, "sector_count = 0x01"),
       (0, "lba0 = 0x10"),
       (0, "lba1 = 0x00"),
       (0, "lba2 = 0x00"),
       (0, "device = 0xE0"),
       (2, "CMD 0x20 READ SECTORS  SC=1  LBA28=0x00000010  DEV=0xE0(LBA)")] := by
  decide

/-- Instance of `dma_squelch_no_effect` at a concrete register-write cycle
observed during a DMA burst. -/
theorem dma_squelch_no_effect_witness :
    decodeCycle default_opts st_mid
      { isWrite := true, isRead := false, cs0_line := false, cs1_line := true,
        da := 3, val := 0x77, dmarq := true, intrq := true } = (st_mid, []) :=
  dma_squelch_no_effect default_opts st_mid _ rfl rfl
